import Mathlib

/-!
# Verification of the voca-ai-engine orchestration core

Shallow embedding of the orchestration layer of the `voca-ai-engine`
repository, together with theorems settling the specification claims.

Embedded source files:
* `src/core/orchestrator/agent_orchestrator.py` (agent creation,
  per-channel setup, lifecycle operations, provisioning status),
* `src/api/routes/message_routing.py` (agent resolution chain and
  dispatch to the VocaOS backend),
* `src/api/routes/agent_provisioning.py` (the `/provision` endpoint).

Modelling conventions:
* external backend calls (AWS Connect provisioning, ElizaOS agent
  creation, the VocaOS HTTP API) are parameters of the embedded
  functions: a value of an `Except`/result type describing what the call
  would return, so theorems quantify over every possible backend
  behaviour;
* `datetime.utcnow()` is an explicit `now : Nat` parameter;
* `uuid.uuid4()` is modelled by a supply of distinct identifiers
  `freshUuid n`, consecutive draws receiving consecutive indices;
* a raised Python exception is the `Except.error` branch; FastAPI
  `HTTPException(status_code, detail={"error": tag, ...})` is the record
  `HttpError` holding the status code and the `error` tag.
-/

namespace VocaEngine

/-- Result of an external call that can raise: either the payload or the
raised exception's message (`except Exception as e` branches see `str(e)`). -/
abbrev ExtResult (α : Type) := Except String α

/-- `True`-ness of an optional string under Python truthiness:
`None` and the empty string are falsy. -/
def optTruthy : Option String → Bool
  | none => false
  | some s => !(s == "")

/-- Python `a or b` on two optional strings (`message.get(k1) or message.get(k2)`):
the first operand if truthy, otherwise the second. -/
def pyOr (a b : Option String) : Option String :=
  if optTruthy a then a else b

/-- Python `s.startswith(pre)`, executably: a prefix test on the
character list. -/
def strStartsWith (s pre : String) : Bool :=
  pre.data.isPrefixOf s.data

/-- Python `s.isdigit()`: non-empty and every character a digit. -/
def strIsDigit (s : String) : Bool :=
  !s.data.isEmpty && s.data.all Char.isDigit

/-- Python `s.replace(old, new)` on character lists: replace every
non-overlapping occurrence, scanning left to right; the fuel argument (the
text length at the top call) bounds the recursion. -/
def replaceAux (old new : List Char) : Nat → List Char → List Char
  | 0, l => l
  | _ + 1, [] => []
  | fuel + 1, c :: rest =>
    if old.isPrefixOf (c :: rest) then
      new ++ replaceAux old new fuel ((c :: rest).drop old.length)
    else
      c :: replaceAux old new fuel rest

/-- Python `s.replace(old, new)`. -/
def strReplace (s old new : String) : String :=
  ⟨replaceAux old.data new.data s.data.length s.data⟩

/-! ## Message routing (`src/api/routes/message_routing.py`) -/

/-- `IncomingMessage` request model (fields used by the routing logic). -/
structure IncomingMessage where
  platform : String
  message : String
  user_id : String
  vendor_id : Option String
  deriving Repr, DecidableEq

/-- The agent-info dict produced by `_determine_agent` / `_lookup_agent_by_user`. -/
structure AgentInfo where
  agent_id : String
  vendor_id : String
  lookup_method : String
  deriving Repr, DecidableEq

/-- One runtime entry of the VocaOS `/pools` response
(`pool["vocaClient"]["runtimeMetrics"]["runtimes"][i]`). -/
structure Runtime where
  agentId : Option String
  character : Option String
  deriving Repr, DecidableEq

/-- One pool of the VocaOS `/pools` response. -/
structure Pool where
  runtimes : List Runtime
  deriving Repr, DecidableEq

/-- Body of the VocaOS `/pools` response. -/
structure PoolsData where
  pools : List Pool
  deriving Repr, DecidableEq

/-- Outcome of the `httpx` GET against the VocaOS `/pools` endpoint:
an exception, or a response with a status code and parsed body. -/
inductive PoolsCall where
  | exc (msg : String)
  | resp (status : Nat) (body : PoolsData)
  deriving Repr, DecidableEq

/-- The `for pool in pools_data.get("pools", [])` loop of
`_lookup_agent_by_user`: the first pool with a non-empty runtime list whose
last runtime has a truthy `agentId` different from `"default-runtime"`
yields the match; otherwise the loop continues, and falls through to `None`. -/
def lookupFromPools : List Pool → Option AgentInfo
  | [] => none
  | p :: rest =>
    match p.runtimes.getLast? with
    | none => lookupFromPools rest
    | some latest =>
      match latest.agentId with
      | none => lookupFromPools rest
      | some aid =>
        if aid ≠ "" ∧ aid ≠ "default-runtime" then
          some { agent_id := aid
                 vendor_id := strReplace aid "vendor-" ""
                 lookup_method := "user_phone_lookup" }
        else lookupFromPools rest

/-- The guard `user_id.startswith("+") or user_id.isdigit()` of
`_lookup_agent_by_user` (Python `"".isdigit()` is `False`). -/
def isPhoneLike (user_id : String) : Bool :=
  strStartsWith user_id "+" || strIsDigit user_id

/-- `_lookup_agent_by_user`: only phone-like user ids are looked up; any
exception from the HTTP call and any non-200 status fall through to `None`.
The `platform` argument is accepted and unused, as in the source. -/
def lookup_agent_by_user (pools_call : PoolsCall) (user_id _platform : String) :
    Option AgentInfo :=
  if isPhoneLike user_id then
    match pools_call with
    | .exc _ => none
    | .resp status body => if status = 200 then lookupFromPools body.pools else none
  else none

/-- `_infer_agent_from_message`: the source always returns `None`
("return None to indicate no inference possible"). -/
def infer_agent_from_message (_req : IncomingMessage) : Option AgentInfo :=
  none

/-- Steps 2 and 3 of `_determine_agent` (user lookup, then inference). -/
def determine_agent_fallback (pools_call : PoolsCall) (req : IncomingMessage) :
    Option AgentInfo :=
  match lookup_agent_by_user pools_call req.user_id req.platform with
  | some info => some info
  | none => infer_agent_from_message req

/-- `_determine_agent`: a truthy `vendor_id` short-circuits to the direct
match `{"agent_id": "vendor-" + vendor_id, ...}`; otherwise the lookup and
inference steps run in order. -/
def determine_agent (pools_call : PoolsCall) (req : IncomingMessage) :
    Option AgentInfo :=
  match req.vendor_id with
  | some v =>
    if v ≠ "" then
      some { agent_id := "vendor-" ++ v
             vendor_id := v
             lookup_method := "direct_vendor_id" }
    else determine_agent_fallback pools_call req
  | none => determine_agent_fallback pools_call req

/-- A raised `HTTPException`: status code plus the `detail["error"]` tag. -/
structure HttpError where
  status : Nat
  error : String
  deriving Repr, DecidableEq

/-- Parsed body of a VocaOS `/messages` response; `response` is
`vocaos_response.get("response")`. -/
structure VocaosResponse where
  response : Option String
  deriving Repr, DecidableEq

/-- Outcome of the `httpx` POST to the VocaOS `/messages` endpoint:
a timeout (`httpx.TimeoutException`), another exception, or a response. -/
inductive DispatchCall where
  | timeout
  | exc (msg : String)
  | resp (status : Nat) (body : VocaosResponse)
  deriving Repr, DecidableEq

/-- `_route_to_vocaos`. A 200 response is returned as-is. A timeout raises
`HTTPException(504, "vocaos_timeout")`. A non-200 response raises
`HTTPException(502, "vocaos_processing_failed")` inside the `try` block,
which the function's own `except Exception` clause catches and re-raises as
`HTTPException(502, "routing_to_vocaos_failed")`; any other exception takes
the same path, so every non-timeout failure surfaces with status 502 and the
`routing_to_vocaos_failed` tag. -/
def route_to_vocaos (dispatch_call : DispatchCall) (_info : AgentInfo) :
    Except HttpError VocaosResponse :=
  match dispatch_call with
  | .timeout => .error { status := 504, error := "vocaos_timeout" }
  | .exc _ => .error { status := 502, error := "routing_to_vocaos_failed" }
  | .resp status body =>
    if status = 200 then .ok body
    else .error { status := 502, error := "routing_to_vocaos_failed" }

/-- The `MessageResponse` model returned by a successful `/chat` call. -/
structure MessageResponse where
  status : String
  message : String
  response : Option String
  agent_id : Option String
  vendor_id : Option String
  processing_time_ms : Option Int
  deriving Repr, DecidableEq

/-- `route_message` (the `/chat` endpoint): resolve the agent via
`_determine_agent`; on `None` raise `HTTPException(404, "agent_not_found")`;
otherwise dispatch via `_route_to_vocaos` (whose `HTTPException`s are
re-raised by the `except HTTPException: raise` clause) and assemble the
success response. `elapsed_ms` is the measured processing time. -/
def route_message (pools_call : PoolsCall) (dispatch_call : DispatchCall)
    (elapsed_ms : Int) (req : IncomingMessage) : Except HttpError MessageResponse :=
  match determine_agent pools_call req with
  | none => .error { status := 404, error := "agent_not_found" }
  | some info =>
    match route_to_vocaos dispatch_call info with
    | .error e => .error e
    | .ok body =>
      .ok { status := "success"
            message := "Message routed and processed successfully"
            response := body.response
            agent_id := some info.agent_id
            vendor_id := some info.vendor_id
            processing_time_ms := some elapsed_ms }

/-! ## Agent orchestrator (`src/core/orchestrator/agent_orchestrator.py`) -/

/-- The fresh-identifier supply modelling `str(uuid.uuid4())`: consecutive
calls draw `freshUuid n`, `freshUuid (n+1)`, …; distinct indices give
distinct identifiers (uuid4 collisions do not occur). -/
def freshUuid (n : Nat) : String :=
  "uuid-" ++ toString n

/-- Payload returned by `AWSConnectProvisioner.provision_instance`. -/
structure ConnectInfo where
  instance_id : String
  flow_id : String
  phone_number : String
  lambda_arn : String
  deriving Repr, DecidableEq

/-- Payload returned by `ElizaOSManager.create_agent` (the field the
orchestrator reads is `agent_id`). -/
structure ElizaInfo where
  agent_id : String
  deriving Repr, DecidableEq

/-- The external backends used by `_setup_channel`, as oracles: what
`aws_provisioner.provision_instance` and `elizaos_manager.create_agent`
would return for a given `agent_id` and `channel_type` (the other config
keys passed along are derived from the same request and do not add
information). -/
structure Backends where
  provisionInstance : String → String → ExtResult ConnectInfo
  createElizaAgent : String → String → ExtResult ElizaInfo

/-- The `config` dict of a channel record: empty at creation, then set to
the backend's payload. -/
inductive ChannelConfig where
  | empty
  | connect (info : ConnectInfo)
  | eliza (info : ElizaInfo)
  deriving Repr, DecidableEq

/-- The channel dict built by `_setup_channel`. -/
structure ChannelInfo where
  id : String
  agent_id : String
  channel_type : String
  status : String
  aws_connect_instance_id : Option String
  elizaos_agent_id : Option String
  config : ChannelConfig
  created_at : Nat
  deriving Repr, DecidableEq

/-- `AgentOrchestrator._setup_channel`: build the channel record in status
`"provisioning"`, call the AWS Connect provisioner when `channel_type` is
`"voice"` or `"sms"` and the ElizaOS manager for every other channel type,
record the backend payload, and finish in status `"active"`. A backend
exception propagates (the `except` clause logs and re-raises). `fresh_id`
is the uuid4 draw for this call. -/
def setup_channel (be : Backends) (fresh_id : String) (now : Nat)
    (agent_id channel_type : String) : ExtResult ChannelInfo :=
  let channel_info : ChannelInfo :=
    { id := fresh_id
      agent_id := agent_id
      channel_type := channel_type
      status := "provisioning"
      aws_connect_instance_id := none
      elizaos_agent_id := none
      config := .empty
      created_at := now }
  if channel_type = "voice" ∨ channel_type = "sms" then
    match be.provisionInstance agent_id channel_type with
    | .error e => .error e
    | .ok connect_info =>
      .ok { channel_info with
              aws_connect_instance_id := some connect_info.instance_id
              config := .connect connect_info
              status := "active" }
  else
    match be.createElizaAgent agent_id channel_type with
    | .error e => .error e
    | .ok elizaos_info =>
      .ok { channel_info with
              elizaos_agent_id := some elizaos_info.agent_id
              config := .eliza elizaos_info
              status := "active" }

/-- The `for channel_type in agent_config["channels"]` loop of
`create_multi_channel_agent`: channels are set up sequentially (each call
awaited before the next starts), each drawing the next uuid from the
supply; the first raised exception propagates and aborts the loop, so
later channels are not attempted. -/
def setupChannels (be : Backends) (now : Nat) (agent_id : String) :
    List String → Nat → ExtResult (List ChannelInfo)
  | [], _ => .ok []
  | channel_type :: rest, n =>
    match setup_channel be (freshUuid n) now agent_id channel_type with
    | .error e => .error e
    | .ok ch =>
      match setupChannels be now agent_id rest (n + 1) with
      | .error e => .error e
      | .ok chs => .ok (ch :: chs)

/-- Agent record, parametric in the channel representation: records built
by `create_multi_channel_agent` carry `ChannelInfo` channels, while the
mock record returned by `get_agent` lists plain channel-type strings. -/
structure AgentR (χ : Type) where
  id : String
  name : String
  description : Option String
  business_type : String
  status : String
  channels : List χ
  created_at : Nat
  updated_at : Nat
  deriving Repr, DecidableEq

/-- The creation request handled by `create_multi_channel_agent`
(the fields the orchestrator reads). -/
structure AgentConfig where
  name : String
  description : Option String
  business_type : String
  channels : List String
  deriving Repr, DecidableEq

/-- The base agent record `create_multi_channel_agent` builds before
processing channels: status `"draft"`, no channels. -/
def initial_agent (agent_id : String) (now : Nat) (cfg : AgentConfig) :
    AgentR ChannelInfo :=
  { id := agent_id
    name := cfg.name
    description := cfg.description
    business_type := cfg.business_type
    status := "draft"
    channels := []
    created_at := now
    updated_at := now }

/-- `AgentOrchestrator.create_multi_channel_agent`: draw the agent id,
create the base record in status `"draft"`, set up every requested channel
in order (appending each result), then set the status to `"provisioning"`
and return the record. A channel-setup exception propagates out of the
whole operation. `n` indexes the uuid supply: the agent id is
`freshUuid n` and the k-th channel draws `freshUuid (n+1+k)`. -/
def create_multi_channel_agent (be : Backends) (now : Nat) (n : Nat)
    (cfg : AgentConfig) : ExtResult (AgentR ChannelInfo) :=
  let agent_id := freshUuid n
  let agent := initial_agent agent_id now cfg
  match setupChannels be now agent_id cfg.channels (n + 1) with
  | .error e => .error e
  | .ok chs => .ok { agent with channels := chs, status := "provisioning" }

/-- `AgentOrchestrator.get_agent`: the source is a hard-coded store that
knows exactly one record, `"mock-agent-1"` (status `"active"`, channels
listed as the strings `["whatsapp", "voice"]`), and returns `None` for
every other id. `now` stands for the `datetime.utcnow()` stamps. -/
def get_agent (now : Nat) (agent_id : String) : Option (AgentR String) :=
  if agent_id = "mock-agent-1" then
    some { id := agent_id
           name := "Customer Support Agent"
           description := none
           business_type := "microfinance"
           status := "active"
           channels := ["whatsapp", "voice"]
           created_at := now
           updated_at := now }
  else none

/-- Body of `AgentOrchestrator.start_agent` after the `get_agent` lookup:
unconditionally set status `"active"` and refresh `updated_at`; `None`
stays `None`. There is no check of the current status. -/
def start_agent_step {χ : Type} (now : Nat) : Option (AgentR χ) → Option (AgentR χ)
  | some a => some { a with status := "active", updated_at := now }
  | none => none

/-- Body of `AgentOrchestrator.stop_agent` after the lookup:
unconditionally set status `"stopped"`. -/
def stop_agent_step {χ : Type} (now : Nat) : Option (AgentR χ) → Option (AgentR χ)
  | some a => some { a with status := "stopped", updated_at := now }
  | none => none

/-- Body of `AgentOrchestrator.pause_agent` after the lookup:
unconditionally set status `"paused"`. -/
def pause_agent_step {χ : Type} (now : Nat) : Option (AgentR χ) → Option (AgentR χ)
  | some a => some { a with status := "paused", updated_at := now }
  | none => none

/-- Body of `AgentOrchestrator.resume_agent` after the lookup:
unconditionally set status `"active"`. -/
def resume_agent_step {χ : Type} (now : Nat) : Option (AgentR χ) → Option (AgentR χ)
  | some a => some { a with status := "active", updated_at := now }
  | none => none

/-- `AgentOrchestrator.start_agent`. -/
def start_agent (now : Nat) (agent_id : String) : Option (AgentR String) :=
  start_agent_step now (get_agent now agent_id)

/-- `AgentOrchestrator.stop_agent`. -/
def stop_agent (now : Nat) (agent_id : String) : Option (AgentR String) :=
  stop_agent_step now (get_agent now agent_id)

/-- `AgentOrchestrator.pause_agent`. -/
def pause_agent (now : Nat) (agent_id : String) : Option (AgentR String) :=
  pause_agent_step now (get_agent now agent_id)

/-- `AgentOrchestrator.resume_agent`. -/
def resume_agent (now : Nat) (agent_id : String) : Option (AgentR String) :=
  resume_agent_step now (get_agent now agent_id)

/-- The status view returned by `AgentOrchestrator.get_agent_status`. -/
structure AgentStatusView (χ : Type) where
  agent_id : String
  status : String
  channels : List χ
  last_updated : Nat
  deriving Repr, DecidableEq

/-- `AgentOrchestrator.get_agent_status`: project the looked-up record. -/
def get_agent_status (now : Nat) (agent_id : String) :
    Option (AgentStatusView String) :=
  match get_agent now agent_id with
  | some a =>
    some { agent_id := agent_id
           status := a.status
           channels := a.channels
           last_updated := a.updated_at }
  | none => none

/-- The provisioning-status dict returned by
`AgentOrchestrator.get_provisioning_status`. -/
structure ProvisioningStatus where
  agent_id : String
  status : String
  progress : Nat
  current_step : String
  total_steps : Nat
  deriving Repr, DecidableEq

/-- `AgentOrchestrator.get_provisioning_status`: the source returns the
fixed dict `{status: "completed", progress: 100, current_step: "finished",
total_steps: 5}` for every agent id; it consults no log and no channel
state. -/
def get_provisioning_status (agent_id : String) : ProvisioningStatus :=
  { agent_id := agent_id
    status := "completed"
    progress := 100
    current_step := "finished"
    total_steps := 5 }

/-- Modelled from the spec (section 4.5), for comparison with
`get_provisioning_status`: the progress formula
`progress = floor(100 * completed_channels / total_channels)` the
specification claims the snapshot computes. -/
def specSnapshotProgress (completed_channels total_channels : Nat) : Nat :=
  100 * completed_channels / total_channels

/-- Message dict handled by the orchestrator's `route_message`
(the keys `_extract_agent_id` reads). -/
structure OrchMessage where
  agent_id : Option String
  instance_id : Option String
  recipient_id : Option String
  deriving Repr, DecidableEq

/-- `AgentOrchestrator._extract_agent_id`: for `"voice"`/`"sms"` channels
`message.get("agent_id") or message.get("instance_id")`, otherwise
`message.get("agent_id") or message.get("recipient_id")`. -/
def extract_agent_id (message : OrchMessage) (channel : String) : Option String :=
  if channel = "voice" ∨ channel = "sms" then
    pyOr message.agent_id message.instance_id
  else
    pyOr message.agent_id message.recipient_id

/-- The two message handlers dispatched to by the orchestrator's
`route_message`, as oracles over the extracted agent id and the message
(`ρ` is the opaque handler-response type). -/
structure Handlers (ρ : Type) where
  awsHandleMessage : Option String → OrchMessage → ExtResult ρ
  elizaHandleMessage : Option String → String → OrchMessage → ExtResult ρ

/-- `AgentOrchestrator.route_message`: extract the agent id, then dispatch
to `aws_provisioner.handle_message` for `"voice"`/`"sms"` channels and to
`elizaos_manager.handle_message` for every other channel. (The context
read and write around the dispatch do not affect the returned response and
are elided.) -/
def orch_route_message {ρ : Type} (h : Handlers ρ) (channel : String)
    (message : OrchMessage) : ExtResult ρ :=
  let agent_id := extract_agent_id message channel
  if channel = "voice" ∨ channel = "sms" then
    h.awsHandleMessage agent_id message
  else
    h.elizaHandleMessage agent_id channel message

/-! ## Provisioning endpoint (`src/api/routes/agent_provisioning.py`) -/

/-- Outcome of the `httpx` POST to the VocaOS `/vendors` endpoint: an
exception (also covering a 200 response whose body lacks
`vendor.agent_id`, which raises `KeyError`), or a response with status
code, the body's `vendor.agent_id` (read only on 200) and text. -/
inductive VendorsCall where
  | exc (msg : String)
  | resp (status : Nat) (vendor_agent_id : String) (text : String)
  deriving Repr, DecidableEq

/-- One entry of the `provisioning_results` dict (the fields the endpoint
reads back: `status`, and `agent_id` on success). -/
structure ProvEntry where
  status : String
  agent_id : Option String
  deriving Repr, DecidableEq

/-- The `provisioning_results` dict built by `_provision_agent`:
at most one `voca_os` entry and one `voca_connect` entry. -/
structure ProvisioningResults where
  voca_os : Option ProvEntry
  voca_connect : Option ProvEntry
  deriving Repr, DecidableEq

/-- The social-media channel list `_provision_agent` tests membership in. -/
def socialMediaChannels : List String :=
  ["whatsapp", "instagram_dm", "facebook_messenger", "twitter_dm"]

/-- `_provision_agent`: when some requested channel is a social-media
channel, call the VocaOS `/vendors` endpoint — a 200 response records a
`success` entry carrying the VocaOS agent id, any other status or an
exception records a `failed` entry; when some requested channel is
`"voice"`/`"sms"`, record the hard-coded `pending` entry ("AWS Connect
provisioning not yet implemented"). Channels matching neither family
produce no entry at all. -/
def provision_agent_backend (vendors_call : VendorsCall) (channels : List String) :
    ProvisioningResults :=
  let has_social_media := channels.any (fun c => socialMediaChannels.contains c)
  let has_voice := channels.any (fun c => c = "voice" ∨ c = "sms")
  let voca_os : Option ProvEntry :=
    if has_social_media then
      some (match vendors_call with
        | .exc _ => { status := "failed", agent_id := none }
        | .resp status vendor_agent_id _ =>
          if status = 200 then
            { status := "success", agent_id := some vendor_agent_id }
          else
            { status := "failed", agent_id := none })
    else none
  let voca_connect : Option ProvEntry :=
    if has_voice then some { status := "pending", agent_id := none } else none
  { voca_os := voca_os, voca_connect := voca_connect }

/-- The `data` dict of the `/provision` endpoint's response
(the claim-relevant fields). -/
structure ProvisionResponseData where
  agent_id : Option String
  name : String
  channels : List String
  status : String
  deriving Repr, DecidableEq

/-- The `AgentProvisioningResponse` returned by the `/provision` endpoint. -/
structure ProvisionResponse where
  status : String
  message : String
  data : ProvisionResponseData
  results : ProvisioningResults
  deriving Repr, DecidableEq

/-- The `/provision` endpoint (`provision_agent`): run `_provision_agent`
(which catches its own failures and returns a results dict), take
`agent_id` from the `voca_os` entry only when its status is `"success"`,
and answer `status="success"` with `data.status="active"` regardless of
the per-backend outcomes. -/
def provision_agent (vendors_call : VendorsCall) (name : String)
    (channels : List String) : ProvisionResponse :=
  let provisioning_results := provision_agent_backend vendors_call channels
  let agent_id : Option String :=
    match provisioning_results.voca_os with
    | some entry => if entry.status = "success" then entry.agent_id else none
    | none => none
  { status := "success"
    message := "Agent provisioned successfully"
    data := { agent_id := agent_id
              name := name
              channels := channels
              status := "active" }
    results := provisioning_results }

/-! ## Test fixtures: concrete backends and requests for witnesses -/

/-- A fixed AWS Connect payload used by the concrete backend fixtures. -/
def connectInfoA : ConnectInfo :=
  { instance_id := "connect-1"
    flow_id := "flow-1"
    phone_number := "+1234567890"
    lambda_arn := "arn-1" }

/-- An always-succeeding AWS Connect provisioner. -/
def awsOkFn : String → String → ExtResult ConnectInfo :=
  fun _ _ => .ok connectInfoA

/-- An always-failing AWS Connect provisioner. -/
def awsFailFn : String → String → ExtResult ConnectInfo :=
  fun _ _ => .error "voice down"

/-- An always-succeeding ElizaOS manager. -/
def elizaOkFn : String → String → ExtResult ElizaInfo :=
  fun _ _ => .ok { agent_id := "eliza-1" }

/-- An always-failing ElizaOS manager. -/
def elizaFailFn : String → String → ExtResult ElizaInfo :=
  fun _ _ => .error "eliza boom"

/-- Backends where both families succeed. -/
def beOK : Backends :=
  { provisionInstance := awsOkFn, createElizaAgent := elizaOkFn }

/-- Backends where the conversational family fails and telephony succeeds. -/
def beElizaFails : Backends :=
  { provisionInstance := awsOkFn, createElizaAgent := elizaFailFn }

/-- Backends where the telephony family fails and conversational succeeds. -/
def beAwsFails : Backends :=
  { provisionInstance := awsFailFn, createElizaAgent := elizaOkFn }

/-- Backends where both families fail. -/
def beBothFail : Backends :=
  { provisionInstance := awsFailFn, createElizaAgent := elizaFailFn }

/-- A create request for a whatsapp channel followed by a voice channel. -/
def cfgWV : AgentConfig :=
  { name := "Store Agent"
    description := none
    business_type := "retail"
    channels := ["whatsapp", "voice"] }

/-- A create request for a voice channel followed by a whatsapp channel. -/
def cfgVW : AgentConfig :=
  { name := "Store Agent"
    description := none
    business_type := "retail"
    channels := ["voice", "whatsapp"] }

/-- The channel record produced by a successful whatsapp setup drawing
`freshUuid 1` under `beOK`. -/
def chA : ChannelInfo :=
  { id := "uuid-1"
    agent_id := "agent-1"
    channel_type := "whatsapp"
    status := "active"
    aws_connect_instance_id := none
    elizaos_agent_id := some "eliza-1"
    config := .eliza { agent_id := "eliza-1" }
    created_at := 0 }

/-- The channel record produced by a successful whatsapp setup drawing
`freshUuid 2` under `beOK`. -/
def chB : ChannelInfo :=
  { chA with id := "uuid-2" }

/-- A VocaOS pools response whose single runtime would resolve to
`store-b` via the user-directory lookup. -/
def poolsStoreB : PoolsCall :=
  .resp 200 { pools := [{ runtimes := [{ agentId := some "vendor-store-b"
                                         character := none }] }] }

/-! ## Helper lemmas -/

/-- `true` exactly on the `ok` branch of an `Except` value. -/
def exceptIsOk {ε α : Type} : Except ε α → Bool
  | .ok _ => true
  | .error _ => false

/-- Whether the backend call `_setup_channel` makes for `channel_type`
(telephony for `voice`/`sms`, conversational otherwise) succeeds. -/
def channelBackendOk (be : Backends) (agent_id channel_type : String) : Bool :=
  if channel_type = "voice" ∨ channel_type = "sms" then
    exceptIsOk (be.provisionInstance agent_id channel_type)
  else
    exceptIsOk (be.createElizaAgent agent_id channel_type)

theorem exceptIsOk_iff {ε α : Type} (x : Except ε α) :
    exceptIsOk x = true ↔ ∃ y, x = .ok y := by
  cases x with
  | ok y => simp [exceptIsOk]
  | error e => simp [exceptIsOk]

/-- `_setup_channel` succeeds exactly when its backend call does. -/
theorem setup_channel_isOk (be : Backends) (fid : String) (now : Nat)
    (aid ct : String) :
    exceptIsOk (setup_channel be fid now aid ct) = channelBackendOk be aid ct := by
  unfold setup_channel channelBackendOk
  by_cases h : ct = "voice" ∨ ct = "sms"
  · simp only [if_pos h]
    cases be.provisionInstance aid ct <;> rfl
  · simp only [if_neg h]
    cases be.createElizaAgent aid ct <;> rfl

/-- A successful `_setup_channel` call returns a record carrying the drawn
fresh id, the given agent id and channel type, in status `"active"`. -/
theorem setup_channel_ok_fields (be : Backends) (fid : String) (now : Nat)
    (aid ct : String) (c : ChannelInfo)
    (h : setup_channel be fid now aid ct = .ok c) :
    c.id = fid ∧ c.agent_id = aid ∧ c.channel_type = ct ∧ c.status = "active" := by
  unfold setup_channel at h
  by_cases hct : ct = "voice" ∨ ct = "sms"
  · rw [if_pos hct] at h
    cases hbe : be.provisionInstance aid ct with
    | error e => rw [hbe] at h; exact Except.noConfusion h
    | ok info =>
      rw [hbe] at h
      simp only [Except.ok.injEq] at h
      subst h
      exact ⟨rfl, rfl, rfl, rfl⟩
  · rw [if_neg hct] at h
    cases hbe : be.createElizaAgent aid ct with
    | error e => rw [hbe] at h; exact Except.noConfusion h
    | ok info =>
      rw [hbe] at h
      simp only [Except.ok.injEq] at h
      subst h
      exact ⟨rfl, rfl, rfl, rfl⟩

/-- When every requested channel's backend call succeeds, the channel loop
returns one `"active"` channel per request. -/
theorem setupChannels_ok (be : Backends) (now : Nat) (aid : String) :
    ∀ (l : List String) (n : Nat),
      (∀ i, i < l.length → channelBackendOk be aid (l.getD i "") = true) →
      ∃ chs, setupChannels be now aid l n = .ok chs ∧
        chs.length = l.length ∧ ∀ c ∈ chs, c.status = "active" := by
  intro l
  induction l with
  | nil =>
    intro n _
    exact ⟨[], rfl, rfl, by intro c hc; cases hc⟩
  | cons ct rest ih =>
    intro n h
    have h0 : channelBackendOk be aid ct = true := by
      have := h 0 (Nat.succ_pos _)
      simpa using this
    have hok : exceptIsOk (setup_channel be (freshUuid n) now aid ct) = true := by
      rw [setup_channel_isOk]; exact h0
    obtain ⟨c, hc⟩ := (exceptIsOk_iff _).mp hok
    obtain ⟨chs, hchs, hlen, hall⟩ := ih (n + 1) (fun i hi => by
      have := h (i + 1) (Nat.succ_lt_succ hi)
      simpa using this)
    refine ⟨c :: chs, ?_, ?_, ?_⟩
    · unfold setupChannels
      rw [hc, hchs]
    · simp [hlen]
    · intro x hx
      rcases List.mem_cons.mp hx with hx | hx
      · subst hx
        exact (setup_channel_ok_fields _ _ _ _ _ _ hc).2.2.2
      · exact hall x hx

/-- A channel-setup failure after a succeeding prefix makes the channel
loop return exactly that failure, whatever the remaining channels are. -/
theorem setupChannels_abort (be : Backends) (now : Nat) (aid : String) :
    ∀ (pre : List String) (ct : String) (rest : List String) (n : Nat) (e : String),
      (∀ i, i < pre.length →
        exceptIsOk (setup_channel be (freshUuid (n + i)) now aid (pre.getD i "")) = true) →
      setup_channel be (freshUuid (n + pre.length)) now aid ct = .error e →
      setupChannels be now aid (pre ++ ct :: rest) n = .error e := by
  intro pre
  induction pre with
  | nil =>
    intro ct rest n e _ hfail
    simp only [List.length_nil, Nat.add_zero] at hfail
    unfold setupChannels
    rw [List.nil_append] at *
    show (match setup_channel be (freshUuid n) now aid ct with
      | .error e => .error e
      | .ok ch =>
        match setupChannels be now aid rest (n + 1) with
        | .error e => .error e
        | .ok chs => .ok (ch :: chs)) = Except.error e
    rw [hfail]
  | cons p pre ih =>
    intro ct rest n e h hfail
    have h0 : exceptIsOk (setup_channel be (freshUuid n) now aid p) = true := by
      have := h 0 (Nat.succ_pos _)
      simpa using this
    obtain ⟨c, hc⟩ := (exceptIsOk_iff _).mp h0
    have hfail2 : setup_channel be (freshUuid ((n + 1) + pre.length)) now aid ct
        = .error e := by
      have harith : n + (p :: pre).length = (n + 1) + pre.length := by
        simp only [List.length_cons]
        omega
      rw [harith] at hfail
      exact hfail
    have hrec := ih ct rest (n + 1) e (fun i hi => by
      have := h (i + 1) (Nat.succ_lt_succ hi)
      have harith : n + (i + 1) = (n + 1) + i := by omega
      rw [harith] at this
      simpa using this) hfail2
    show (match setup_channel be (freshUuid n) now aid p with
      | .error e => .error e
      | .ok ch =>
        match setupChannels be now aid (pre ++ ct :: rest) (n + 1) with
        | .error e => .error e
        | .ok chs => .ok (ch :: chs)) = Except.error e
    rw [hc, hrec]

/-! ## Claim theorems -/

/-- C1 counterexample: a create request for `[whatsapp, voice]` in which
both backend provision calls succeed returns the agent in status
`"provisioning"`, not `"active"` — the create operation never settles the
agent in `active`, it is left at `provisioning`. -/
theorem create_leaves_status_provisioning_cex :
    (create_multi_channel_agent beOK 0 0 cfgWV).map (fun a => a.status) =
      .ok "provisioning" ∧
    "provisioning" ≠ "active" :=
  ⟨rfl, by decide⟩

/-- C1 (amended): for every create request all of whose requested
channels' backend provision calls succeed, the agent is created in status
`"draft"` and the operation returns it settled in status `"provisioning"`
(not `"active"`), with one channel per request, each individually in
status `"active"`. -/
theorem create_settles_in_provisioning (be : Backends) (now n : Nat)
    (cfg : AgentConfig)
    (h : ∀ i, i < cfg.channels.length →
      channelBackendOk be (freshUuid n) (cfg.channels.getD i "") = true) :
    (initial_agent (freshUuid n) now cfg).status = "draft" ∧
    ∃ a, create_multi_channel_agent be now n cfg = .ok a ∧
      a.status = "provisioning" ∧ a.status ≠ "active" ∧
      a.channels.length = cfg.channels.length ∧
      ∀ c ∈ a.channels, c.status = "active" := by
  refine ⟨rfl, ?_⟩
  obtain ⟨chs, hchs, hlen, hall⟩ :=
    setupChannels_ok be now (freshUuid n) cfg.channels (n + 1) h
  simp only [create_multi_channel_agent]
  rw [hchs]
  exact ⟨_, rfl, rfl, (show ("provisioning" : String) ≠ "active" by decide), hlen, hall⟩

/-- C1 witness: the amended theorem applied to the `[whatsapp, voice]`
request under all-succeeding backends. -/
theorem create_settles_in_provisioning_witness :
    (∀ i, i < cfgWV.channels.length →
      channelBackendOk beOK (freshUuid 0) (cfgWV.channels.getD i "") = true) ∧
    ((initial_agent (freshUuid 0) 0 cfgWV).status = "draft" ∧
     ∃ a, create_multi_channel_agent beOK 0 0 cfgWV = .ok a ∧
       a.status = "provisioning" ∧ a.status ≠ "active" ∧
       a.channels.length = cfgWV.channels.length ∧
       ∀ c ∈ a.channels, c.status = "active") :=
  ⟨by decide, create_settles_in_provisioning beOK 0 0 cfgWV (by decide)⟩

/-- C2 counterexample: the stored agent `"mock-agent-1"` has status
`"active"`, which is not a permitted source state for `start` (only
`draft`, `stopped`, `paused` are), yet `start_agent` succeeds on it
instead of failing with a ConflictError. -/
theorem start_from_active_succeeds_cex :
    (get_agent 0 "mock-agent-1").map (fun a => a.status) = some "active" ∧
    (start_agent 0 "mock-agent-1").isSome = true ∧
    (start_agent 0 "mock-agent-1").map (fun a => a.status) = some "active" :=
  ⟨rfl, rfl, rfl⟩

/-- C2 (amended): the lifecycle operations enforce no state-machine
guards: on any found agent record, whatever its current status, `start`
and `resume` unconditionally set status `"active"`, `pause` sets
`"paused"` and `stop` sets `"stopped"`, each refreshing `updated_at`; a
missing agent yields `none`, and no ConflictError exists in the code. -/
theorem lifecycle_ops_unguarded {χ : Type} (now : Nat) (a : AgentR χ) :
    start_agent_step now (some a) =
      some { a with status := "active", updated_at := now } ∧
    pause_agent_step now (some a) =
      some { a with status := "paused", updated_at := now } ∧
    resume_agent_step now (some a) =
      some { a with status := "active", updated_at := now } ∧
    stop_agent_step now (some a) =
      some { a with status := "stopped", updated_at := now } ∧
    start_agent_step now (none : Option (AgentR χ)) = none ∧
    pause_agent_step now (none : Option (AgentR χ)) = none ∧
    resume_agent_step now (none : Option (AgentR χ)) = none :=
  ⟨rfl, rfl, rfl, rfl, rfl, rfl, rfl⟩

/-- C3 counterexample: for the request `[whatsapp, voice]` where the
whatsapp backend fails, the create operation returns only that failure;
the sibling voice channel's provision call is never attempted and no
per-channel result is recorded — the outcome is identical whether the
voice backend would succeed (`beElizaFails`) or fail differently
(`beBothFail`). -/
theorem sibling_channels_not_attempted_cex :
    create_multi_channel_agent beElizaFails 0 0 cfgWV = .error "eliza boom" ∧
    create_multi_channel_agent beBothFail 0 0 cfgWV = .error "eliza boom" ∧
    beElizaFails.provisionInstance "uuid-0" "voice" = .ok connectInfoA ∧
    beBothFail.provisionInstance "uuid-0" "voice" = .error "voice down" :=
  ⟨rfl, rfl, rfl, rfl⟩

/-- C3 (amended): a provisioning failure of one requested channel aborts
the whole create operation with exactly that failure; channels after the
failing one in the request list are not attempted (the outcome is the
same for every possible behaviour of their backends, as `rest` is
universally quantified) and no per-channel results are recorded. -/
theorem channel_failure_aborts_siblings (be : Backends) (now n : Nat)
    (cfg : AgentConfig) (pre : List String) (ct : String) (rest : List String)
    (e : String)
    (hsplit : cfg.channels = pre ++ ct :: rest)
    (hpre : ∀ i, i < pre.length →
      exceptIsOk (setup_channel be (freshUuid (n + 1 + i)) now (freshUuid n)
        (pre.getD i "")) = true)
    (hfail : setup_channel be (freshUuid (n + 1 + pre.length)) now (freshUuid n) ct
      = .error e) :
    create_multi_channel_agent be now n cfg = .error e := by
  simp only [create_multi_channel_agent]
  rw [hsplit, setupChannels_abort be now (freshUuid n) pre ct rest (n + 1) e hpre hfail]

/-- C3 witness: the amended theorem applied to the request
`[voice, whatsapp]` under backends where voice succeeds and whatsapp
fails. -/
theorem channel_failure_aborts_siblings_witness :
    cfgVW.channels = ["voice"] ++ "whatsapp" :: [] ∧
    (∀ i, i < (["voice"] : List String).length →
      exceptIsOk (setup_channel beElizaFails (freshUuid (0 + 1 + i)) 0 (freshUuid 0)
        ((["voice"] : List String).getD i "")) = true) ∧
    setup_channel beElizaFails (freshUuid (0 + 1 + (["voice"] : List String).length)) 0
      (freshUuid 0) "whatsapp" = .error "eliza boom" ∧
    create_multi_channel_agent beElizaFails 0 0 cfgVW = .error "eliza boom" :=
  ⟨rfl, by decide, rfl,
    channel_failure_aborts_siblings beElizaFails 0 0 cfgVW ["voice"] "whatsapp" []
      "eliza boom" rfl (by decide) rfl⟩

/-- C4 counterexample: provisioning `whatsapp` twice for `"agent-1"`
under the same succeeding backend draws two distinct fresh uuids and
returns two distinct channel records with distinct `id`s for the same
`(agent_id, channel_type)` pair — the second call does not return the
existing channel. -/
theorem reprovision_duplicate_cex :
    setup_channel beOK (freshUuid 1) 0 "agent-1" "whatsapp" = .ok chA ∧
    setup_channel beOK (freshUuid 2) 0 "agent-1" "whatsapp" = .ok chB ∧
    chA.id ≠ chB.id ∧ chA.agent_id = chB.agent_id ∧
    chA.channel_type = chB.channel_type :=
  ⟨rfl, rfl, by decide, rfl, rfl⟩

/-- C4 (amended): `_setup_channel` performs no idempotency check: every
successful call returns a brand-new channel record whose `id` is the
fresh uuid drawn for that call, so two calls for the same
`(agent_id, channel_type)` return records with distinct `id`s whenever
their uuid draws differ — which consecutive uuid4 draws always do. -/
theorem reprovision_creates_new_channel (be1 be2 : Backends)
    (fid1 fid2 : String) (now1 now2 : Nat) (aid ct : String)
    (c1 c2 : ChannelInfo)
    (hne : fid1 ≠ fid2)
    (h1 : setup_channel be1 fid1 now1 aid ct = .ok c1)
    (h2 : setup_channel be2 fid2 now2 aid ct = .ok c2) :
    c1.id ≠ c2.id ∧ c1.agent_id = c2.agent_id ∧
    c1.channel_type = c2.channel_type := by
  obtain ⟨hid1, hag1, hct1, _⟩ := setup_channel_ok_fields _ _ _ _ _ _ h1
  obtain ⟨hid2, hag2, hct2, _⟩ := setup_channel_ok_fields _ _ _ _ _ _ h2
  refine ⟨?_, ?_, ?_⟩
  · rw [hid1, hid2]; exact hne
  · rw [hag1, hag2]
  · rw [hct1, hct2]

/-- C4 witness: the amended theorem applied to two concrete whatsapp
setups for `"agent-1"` drawing `freshUuid 1` and `freshUuid 2`. -/
theorem reprovision_creates_new_channel_witness :
    chA.id ≠ chB.id ∧ chA.agent_id = chB.agent_id ∧
    chA.channel_type = chB.channel_type :=
  reprovision_creates_new_channel beOK beOK (freshUuid 1) (freshUuid 2) 0 0
    "agent-1" "whatsapp" chA chB (by decide) rfl rfl

/-- C5 (confirmed): a message carrying a truthy explicit vendor
identifier resolves to the agent named by that identifier
(`vendor-<hint>`, lookup method `direct_vendor_id`), for every possible
directory/pools state — the lookup and inference steps are never
consulted and cannot override the hint. -/
theorem explicit_hint_authoritative (pools_call : PoolsCall)
    (req : IncomingMessage) (v : String)
    (hv : req.vendor_id = some v) (hne : v ≠ "") :
    determine_agent pools_call req =
      some { agent_id := "vendor-" ++ v
             vendor_id := v
             lookup_method := "direct_vendor_id" } := by
  unfold determine_agent
  rw [hv]
  simp [hne]

/-- A message whose explicit hint names `store-a` from a user whom the
directory would resolve to `store-b`. -/
def reqHintStoreA : IncomingMessage :=
  { platform := "whatsapp"
    message := "Where is my order?"
    user_id := "+1234567890"
    vendor_id := some "store-a" }

/-- C5 witness: with the directory state resolving the user to
`store-b`, the hinted message still resolves to `store-a`; the last
conjunct shows the lookup would indeed have produced `store-b`. -/
theorem explicit_hint_authoritative_witness :
    reqHintStoreA.vendor_id = some "store-a" ∧
    "store-a" ≠ "" ∧
    determine_agent poolsStoreB reqHintStoreA =
      some { agent_id := "vendor-store-a"
             vendor_id := "store-a"
             lookup_method := "direct_vendor_id" } ∧
    lookup_agent_by_user poolsStoreB "+1234567890" "whatsapp" =
      some { agent_id := "vendor-store-b"
             vendor_id := "store-b"
             lookup_method := "user_phone_lookup" } :=
  ⟨rfl, by decide,
    explicit_hint_authoritative poolsStoreB reqHintStoreA "store-a" rfl (by decide),
    by decide⟩

/-- C6 (confirmed): with no truthy vendor hint and a user-directory
lookup that finds nothing (the content-inference step of the source
always returns `None`), routing fails with the 404 `agent_not_found`
error, and no dispatch occurs: the result is this error for every
possible dispatch-backend behaviour `dispatch_call`. -/
theorem no_match_no_dispatch (pools_call : PoolsCall)
    (dispatch_call : DispatchCall) (elapsed_ms : Int) (req : IncomingMessage)
    (hhint : optTruthy req.vendor_id = false)
    (hlookup : lookup_agent_by_user pools_call req.user_id req.platform = none) :
    route_message pools_call dispatch_call elapsed_ms req =
      .error { status := 404, error := "agent_not_found" } := by
  have hda : determine_agent pools_call req = none := by
    unfold determine_agent determine_agent_fallback infer_agent_from_message
    cases hv : req.vendor_id with
    | none =>
      simp [hlookup]
    | some v =>
      rw [hv] at hhint
      have hveq : v = "" := by
        simpa [optTruthy] using hhint
      subst hveq
      simp [hlookup]
  unfold route_message
  rw [hda]

/-- C6 witness: the theorem applied to Scenario C — a whatsapp message
from `+1234567890` with no hint against an empty pools state. -/
theorem no_match_no_dispatch_witness :
    optTruthy (none : Option String) = false ∧
    lookup_agent_by_user (.resp 200 { pools := [] }) "+1234567890" "whatsapp"
      = none ∧
    route_message (.resp 200 { pools := [] })
      (.resp 200 { response := some "hello" }) 3
      { platform := "whatsapp", message := "hi", user_id := "+1234567890"
        vendor_id := none } =
      .error { status := 404, error := "agent_not_found" } :=
  ⟨rfl, rfl,
    no_match_no_dispatch (.resp 200 { pools := [] })
      (.resp 200 { response := some "hello" }) 3
      { platform := "whatsapp", message := "hi", user_id := "+1234567890"
        vendor_id := none } rfl rfl⟩

/-- C7 (confirmed): every routed message lands in exactly one of four
cases with three distinct error kinds — resolution failure gives the 404
`agent_not_found` error; a dispatch timeout gives the 504
`vocaos_timeout` error (UpstreamTimeout); any non-timeout dispatch
failure (exception or non-200 response) gives a 502 error
(UpstreamError); and a 200 dispatch returns the backend's reply text
together with the resolved agent identity and the elapsed time. -/
theorem dispatch_outcome_trichotomy (pc : PoolsCall) (dc : DispatchCall)
    (ems : Int) (req : IncomingMessage) :
    (determine_agent pc req = none ∧
      route_message pc dc ems req =
        .error { status := 404, error := "agent_not_found" }) ∨
    (∃ info, determine_agent pc req = some info ∧
      ((dc = .timeout ∧
        route_message pc dc ems req =
          .error { status := 504, error := "vocaos_timeout" }) ∨
       ((∃ msg, dc = .exc msg) ∧
        route_message pc dc ems req =
          .error { status := 502, error := "routing_to_vocaos_failed" }) ∨
       (∃ s body, dc = .resp s body ∧ s ≠ 200 ∧
        route_message pc dc ems req =
          .error { status := 502, error := "routing_to_vocaos_failed" }) ∨
       (∃ body, dc = .resp 200 body ∧
        route_message pc dc ems req =
          .ok { status := "success"
                message := "Message routed and processed successfully"
                response := body.response
                agent_id := some info.agent_id
                vendor_id := some info.vendor_id
                processing_time_ms := some ems }))) := by
  cases hda : determine_agent pc req with
  | none =>
    left
    refine ⟨rfl, ?_⟩
    unfold route_message
    rw [hda]
  | some info =>
    right
    refine ⟨info, rfl, ?_⟩
    cases dc with
    | timeout =>
      left
      refine ⟨rfl, ?_⟩
      simp [route_message, route_to_vocaos, hda]
    | exc msg =>
      right; left
      refine ⟨⟨msg, rfl⟩, ?_⟩
      simp [route_message, route_to_vocaos, hda]
    | resp s body =>
      by_cases hs : s = 200
      · right; right; right
        subst hs
        refine ⟨body, rfl, ?_⟩
        simp [route_message, route_to_vocaos, hda]
      · right; right; left
        refine ⟨s, body, rfl, hs, ?_⟩
        simp [route_message, route_to_vocaos, hda, hs]

/-- C8 (confirmed): provisioning and the orchestrator's message dispatch
use the same backend-family partition. For a `voice`/`sms` channel type,
both `_setup_channel` and `route_message` depend only on the telephony
backend (their outcome is unchanged by any change to the conversational
backend); for every other channel type, both depend only on the
conversational backend — so no channel type is ever sent to the other
family's backend or to both. -/
theorem backend_family_partition (ct : String) :
    ((ct = "voice" ∨ ct = "sms") →
      (∀ (be1 be2 : Backends) (fid : String) (now : Nat) (aid : String),
        be1.provisionInstance = be2.provisionInstance →
        setup_channel be1 fid now aid ct = setup_channel be2 fid now aid ct) ∧
      (∀ (ρ : Type) (h1 h2 : Handlers ρ) (message : OrchMessage),
        h1.awsHandleMessage = h2.awsHandleMessage →
        orch_route_message h1 ct message = orch_route_message h2 ct message)) ∧
    (¬(ct = "voice" ∨ ct = "sms") →
      (∀ (be1 be2 : Backends) (fid : String) (now : Nat) (aid : String),
        be1.createElizaAgent = be2.createElizaAgent →
        setup_channel be1 fid now aid ct = setup_channel be2 fid now aid ct) ∧
      (∀ (ρ : Type) (h1 h2 : Handlers ρ) (message : OrchMessage),
        h1.elizaHandleMessage = h2.elizaHandleMessage →
        orch_route_message h1 ct message = orch_route_message h2 ct message)) := by
  constructor
  · intro hct
    constructor
    · intro be1 be2 fid now aid hbe
      unfold setup_channel
      rw [if_pos hct, if_pos hct, hbe]
    · intro ρ h1 h2 message hh
      unfold orch_route_message
      rw [if_pos hct, if_pos hct, hh]
  · intro hct
    constructor
    · intro be1 be2 fid now aid hbe
      unfold setup_channel
      rw [if_neg hct, if_neg hct, hbe]
    · intro ρ h1 h2 message hh
      unfold orch_route_message
      rw [if_neg hct, if_neg hct, hh]

/-- C8 witness: the partition theorem applied at channel types `voice`
(outcome unchanged when the conversational backend changes) and
`whatsapp` (outcome unchanged when the telephony backend changes). -/
theorem backend_family_partition_witness :
    setup_channel beOK (freshUuid 1) 0 "agent-1" "voice" =
      setup_channel beElizaFails (freshUuid 1) 0 "agent-1" "voice" ∧
    setup_channel beOK (freshUuid 1) 0 "agent-1" "whatsapp" =
      setup_channel beAwsFails (freshUuid 1) 0 "agent-1" "whatsapp" :=
  ⟨((backend_family_partition "voice").1 (Or.inl rfl)).1 beOK beElizaFails
      (freshUuid 1) 0 "agent-1" rfl,
   ((backend_family_partition "whatsapp").2 (by decide)).1 beOK beAwsFails
      (freshUuid 1) 0 "agent-1" rfl⟩

/-- C9 counterexample: for an underlying state of 2 total channels with 0
completed, the claimed formula `floor(100 * completed / total)` yields 0,
while the snapshot operation — which consults no log and no channel
state — reports progress 100. -/
theorem snapshot_ignores_progress_formula_cex :
    specSnapshotProgress 0 2 = 0 ∧
    (get_provisioning_status "agent-1").progress = 100 ∧
    (get_provisioning_status "agent-1").progress ≠ specSnapshotProgress 0 2 :=
  ⟨rfl, rfl, by decide⟩

/-- C9 (amended): the provisioning-status snapshot ignores the
provisioning log and the channels entirely: it returns the fixed record
(status `"completed"`, progress 100, current step `"finished"`, 5 total
steps) for every agent, so any two reads agree on everything but the
echoed agent id — it is trivially pure and idempotent, but does not
compute `floor(100 * completed / total)`. -/
theorem snapshot_constant (aid aid1 aid2 : String) :
    get_provisioning_status aid =
      { agent_id := aid, status := "completed", progress := 100,
        current_step := "finished", total_steps := 5 } ∧
    (get_provisioning_status aid1).progress =
      (get_provisioning_status aid2).progress ∧
    (get_provisioning_status aid1).current_step =
      (get_provisioning_status aid2).current_step ∧
    (get_provisioning_status aid1).status = (get_provisioning_status aid2).status :=
  ⟨rfl, rfl, rfl, rfl⟩

/-- C10 (confirmed): whenever the per-backend fan-out returns (it
catches its own failures), the `/provision` endpoint reports overall
status `"success"` with agent data status `"active"`; when no per-backend
result is a success — every entry failed/pending, or no requested channel
matched either family so the results are empty — the returned `agent_id`
is `none` and no error is raised. -/
theorem provision_endpoint_always_success (vendors_call : VendorsCall)
    (name : String) (channels : List String)
    (h : ((provision_agent_backend vendors_call channels).voca_os.all
      fun entry => !(entry.status == "success")) = true) :
    (provision_agent vendors_call name channels).status = "success" ∧
    (provision_agent vendors_call name channels).data.status = "active" ∧
    (provision_agent vendors_call name channels).data.agent_id = none := by
  refine ⟨rfl, rfl, ?_⟩
  unfold provision_agent
  cases hv : (provision_agent_backend vendors_call channels).voca_os with
  | none =>
    simp only [hv]
  | some entry =>
    rw [hv] at h
    simp only [Option.all_some, Bool.not_eq_true', beq_eq_false_iff_ne, ne_eq] at h
    simp only [hv, if_neg h]

/-- C10 witness: the theorem applied to a `[whatsapp, voice]` request
whose VocaOS call answers 500 — the voca_os entry is `failed`, the
voca_connect entry `pending`, and the endpoint still answers success /
active with a `none` agent id. -/
theorem provision_endpoint_always_success_witness :
    ((provision_agent_backend (.resp 500 "x" "err") ["whatsapp", "voice"]).voca_os.all
      fun entry => !(entry.status == "success")) = true ∧
    ((provision_agent (.resp 500 "x" "err") "MyStore" ["whatsapp", "voice"]).status
        = "success" ∧
     (provision_agent (.resp 500 "x" "err") "MyStore"
        ["whatsapp", "voice"]).data.status = "active" ∧
     (provision_agent (.resp 500 "x" "err") "MyStore"
        ["whatsapp", "voice"]).data.agent_id = none) :=
  ⟨by decide,
    provision_endpoint_always_success (.resp 500 "x" "err") "MyStore"
      ["whatsapp", "voice"] (by decide)⟩

end VocaEngine
